import Mathlib

/-
  Verification of the Caissa-frame card composer geometry and state logic.

  The repository is a TypeScript application; the numeric code uses IEEE
  doubles, which we idealise as exact rational arithmetic. Each definition
  below is a direct translation of a source function, named after it:

  - MaskGeometry, PhotoTransform, TextProperties, FrameAsset, PhotoAsset,
    CardProject, DEFAULT_PHOTO_TRANSFORM, DEFAULT_TEXT_PROPERTIES,
    CANVAS_WIDTH, CANVAS_HEIGHT           from src/src/types.ts
  - calculateFitTransform, detectTransparentRegion (its pixel scan)
                                           from src/src/utils/imageUtils.ts
  - handleFrameSelect, handleSaveCard, maskToCanvas (the mask-to-canvas
    conversion repeated in handleFrameSelect / handlePhotoSelect /
    getCurrentMask)                        from src/src/App.tsx
  - loadFrames, loadPhotos, loadProject    from src/src/utils/storage.ts
-/

namespace Caissa

/-- Rectangle mask in the frames native pixel space (src/src/types.ts,
MaskGeometry; the constant discriminator field type = rectangle is omitted). -/
structure MaskGeometry where
  x : ℚ
  y : ℚ
  width : ℚ
  height : ℚ
  deriving DecidableEq, Repr

/-- Placement of a photo on the logical canvas (src/src/types.ts). -/
structure PhotoTransform where
  x : ℚ
  y : ℚ
  scale : ℚ
  rotation : ℚ
  deriving DecidableEq, Repr

/-- Text layer properties (src/src/types.ts). -/
structure TextProperties where
  content : String
  fontFamily : String
  fontSize : ℚ
  color : String
  x : ℚ
  y : ℚ
  outlineColor : String
  outlineWidth : ℚ
  shadowEnabled : Bool
  visible : Bool
  deriving DecidableEq, Repr

/-- Frame asset (src/src/types.ts); mask is nullable. -/
structure FrameAsset where
  id : String
  name : String
  imageData : String
  width : ℚ
  height : ℚ
  mask : Option MaskGeometry
  deriving DecidableEq, Repr

/-- Photo asset (src/src/types.ts). -/
structure PhotoAsset where
  id : String
  name : String
  imageData : String
  width : ℚ
  height : ℚ
  deriving DecidableEq, Repr

/-- Singleton project state (src/src/types.ts, CardProject). -/
structure CardProject where
  selectedFrameId : Option String
  selectedPhotoId : Option String
  photoTransform : PhotoTransform
  textProperties : TextProperties
  deriving DecidableEq, Repr

/-- src/src/types.ts DEFAULT_PHOTO_TRANSFORM. -/
def DEFAULT_PHOTO_TRANSFORM : PhotoTransform :=
  { x := 0, y := 0, scale := 1, rotation := 0 }

/-- src/src/types.ts DEFAULT_TEXT_PROPERTIES. -/
def DEFAULT_TEXT_PROPERTIES : TextProperties :=
  { content := "Happy Birthday!"
    fontFamily := "Dancing Script"
    fontSize := 48
    color := "#FFD700"
    x := 540
    y := 200
    outlineColor := "#8B4513"
    outlineWidth := 2
    shadowEnabled := true
    visible := false }

/-- src/src/types.ts CANVAS_WIDTH (logical canvas width in px). -/
def CANVAS_WIDTH : ℚ := 1080

/-- src/src/types.ts CANVAS_HEIGHT (logical canvas height in px). -/
def CANVAS_HEIGHT : ℚ := 1920

/-- The mode parameter of calculateFitTransform: fit, fill or center. -/
inductive FitMode where
  | fit
  | fill
  | center
  deriving DecidableEq, Repr

/-- The TypeScript declaration gives the mode parameter the default value
fill (src/src/utils/imageUtils.ts line 111). -/
def defaultFitMode : FitMode := FitMode.fill

/-- src/src/utils/imageUtils.ts calculateFitTransform (lines 107-154):
computes the photo placement for a given mask under fit / fill / center. -/
def calculateFitTransform (photoWidth photoHeight : ℚ) (mask : MaskGeometry)
    (mode : FitMode) : PhotoTransform :=
  let maskAspect := mask.width / mask.height
  let photoAspect := photoWidth / photoHeight
  let scale : ℚ :=
    if mode = FitMode.fit then
      -- Photo fits entirely within mask
      if photoAspect > maskAspect then mask.width / photoWidth
      else mask.height / photoHeight
    else
      -- Photo fills mask (cover behavior)
      if photoAspect > maskAspect then mask.height / photoHeight
      else mask.width / photoWidth
  let scaledWidth := photoWidth * scale
  let scaledHeight := photoHeight * scale
  -- Center horizontally
  let x := mask.x + (mask.width - scaledWidth) / 2
  -- Position to show upper third of photo (face priority)
  let y : ℚ :=
    if mode = FitMode.center then
      mask.y + (mask.height - scaledHeight) / 2
    else
      -- Show upper portion - offset by 20 percent of the overflow
      let overflow := scaledHeight - mask.height
      mask.y - overflow * 0.2
  { x := x, y := y, scale := scale, rotation := 0 }

/-- One RGBA pixel with 8-bit channels, as read back from the 2d canvas in
detectTransparentRegion (src/src/utils/imageUtils.ts lines 47-48). -/
structure Pixel where
  r : ℕ
  g : ℕ
  b : ℕ
  a : ℕ
  deriving DecidableEq, Repr

/-- The window-pixel test of the scan loop (src/src/utils/imageUtils.ts line
64): transparent (alpha below 10) or nearly white with high alpha. -/
def isWindowPixel (p : Pixel) : Bool :=
  decide (p.a < 10) ||
    (decide (p.r > 240) && decide (p.g > 240) && decide (p.b > 240) &&
      decide (p.a > 200))

/-- Accumulator of the pixel scan in detectTransparentRegion: running
bounding box and the foundTransparent flag (lines 51-55). -/
structure ScanState where
  minX : ℕ
  minY : ℕ
  maxX : ℕ
  maxY : ℕ
  found : Bool
  deriving DecidableEq, Repr

/-- Body of the scan loop (src/src/utils/imageUtils.ts lines 64-70): a window
pixel extends the bounding box and sets the flag. -/
def scanPixel (px : ℕ → ℕ → Pixel) (s : ScanState) (y x : ℕ) : ScanState :=
  if isWindowPixel (px x y) then
    { minX := min s.minX x
      minY := min s.minY y
      maxX := max s.maxX x
      maxY := max s.maxY y
      found := true }
  else s

/-- The inner x loop of the scan (src/src/utils/imageUtils.ts line 59):
one row y of a width W image. -/
def scanRow (px : ℕ → ℕ → Pixel) (W y : ℕ) (s : ScanState) : ScanState :=
  (List.range W).foldl (fun t x => scanPixel px t y x) s

/-- The double loop of detectTransparentRegion (lines 58-72): row-major scan
of a W H image given by the pixel function px, starting from
minX = W, minY = H, maxX = 0, maxY = 0, foundTransparent = false. -/
def scanImage (W H : ℕ) (px : ℕ → ℕ → Pixel) : ScanState :=
  (List.range H).foldl (fun s y => scanRow px W y s)
    { minX := W, minY := H, maxX := 0, maxY := 0, found := false }

/-- The default center-area mask used when no significant window region is
found (src/src/utils/imageUtils.ts lines 76-87). -/
def fallbackMask (W H : ℕ) : MaskGeometry :=
  { x := (W : ℚ) * 0.15
    y := (H : ℚ) * 0.15
    width := (W : ℚ) * 0.7
    height := (H : ℚ) * 0.5 }

/-- src/src/utils/imageUtils.ts detectTransparentRegion (lines 32-104),
restricted to its pure core: the image is already decoded into a pixel
function over a W by H grid. Returns the fallback mask when nothing was
found or the bounding box is too small, else the padded bounding box. -/
def detectTransparentRegion (W H : ℕ) (px : ℕ → ℕ → Pixel) : MaskGeometry :=
  let s := scanImage W H px
  if s.found = false ∨ (s.maxX : ℤ) - s.minX < 50 ∨ (s.maxY : ℤ) - s.minY < 50 then
    -- No significant transparent area found, use center area as default
    fallbackMask W H
  else
    -- Add small padding
    let padding : ℚ := 5
    { x := max 0 ((s.minX : ℚ) - padding)
      y := max 0 ((s.minY : ℚ) - padding)
      width := min ((W : ℚ) - s.minX + padding * 2) ((s.maxX : ℚ) - s.minX + padding * 2)
      height := min ((H : ℚ) - s.minY + padding * 2) ((s.maxY : ℚ) - s.minY + padding * 2) }

/-- The frame-native-to-canvas mask conversion, written identically in
handleFrameSelect, handlePhotoSelect, handleMaskSave and getCurrentMask
(src/src/App.tsx lines 139-149, 172-182, 209-219, 240-250): uniform
scale-to-fit with centering offsets. -/
def maskToCanvas (frameWidth frameHeight : ℚ) (mask : MaskGeometry) : MaskGeometry :=
  let frameScale := min (CANVAS_WIDTH / frameWidth) (CANVAS_HEIGHT / frameHeight)
  let frameOffsetX := (CANVAS_WIDTH - frameWidth * frameScale) / 2
  let frameOffsetY := (CANVAS_HEIGHT - frameHeight * frameScale) / 2
  { x := frameOffsetX + mask.x * frameScale
    y := frameOffsetY + mask.y * frameScale
    width := mask.width * frameScale
    height := mask.height * frameScale }

/-- Modelled from the spec: the inverse of maskToCanvas, undoing the same
scale and centering offsets (spec section 4.3 and the round-trip property of
section 8); the source itself never converts back, so this definition
follows the spec words. -/
def maskFromCanvas (frameWidth frameHeight : ℚ) (mask : MaskGeometry) : MaskGeometry :=
  let frameScale := min (CANVAS_WIDTH / frameWidth) (CANVAS_HEIGHT / frameHeight)
  let frameOffsetX := (CANVAS_WIDTH - frameWidth * frameScale) / 2
  let frameOffsetY := (CANVAS_HEIGHT - frameHeight * frameScale) / 2
  { x := (mask.x - frameOffsetX) / frameScale
    y := (mask.y - frameOffsetY) / frameScale
    width := mask.width / frameScale
    height := mask.height / frameScale }

/-- src/src/App.tsx handleFrameSelect (lines 129-160) as a pure state
transition on the project record: selecting frameId recomputes the photo
transform in fill mode against the mask in canvas coordinates when the
frame has a mask and a photo is selected, else keeps the previous
transform. -/
def handleFrameSelect (frames : List FrameAsset) (photos : List PhotoAsset)
    (prev : CardProject) (frameId : String) : CardProject :=
  let frame := frames.find? (fun f => f.id == frameId)
  let photo := photos.find? (fun p => prev.selectedPhotoId == some p.id)
  let newTransform :=
    match frame, photo with
    | some f, some p =>
      match f.mask with
      | some m =>
        calculateFitTransform p.width p.height (maskToCanvas f.width f.height m)
          FitMode.fill
      | none => prev.photoTransform
    | _, _ => prev.photoTransform
  { prev with selectedFrameId := some frameId, photoTransform := newTransform }

/-- One snapshot in the saved-cards gallery (src/src/App.tsx lines 271-277). -/
structure SavedCard where
  id : String
  timestamp : String
  imageData : String
  frameId : Option String
  photoId : Option String
  deriving DecidableEq, Repr

/-- The list update of src/src/App.tsx handleSaveCard (lines 278-280):
unshift the new card, then pop the last entry when the length exceeds 20. -/
def handleSaveCard (savedCards : List SavedCard) (newCard : SavedCard) :
    List SavedCard :=
  let cards := newCard :: savedCards
  if cards.length > 20 then cards.dropLast else cards

/-- The default project returned by loadProject when nothing is stored
(src/src/utils/storage.ts lines 69-74). -/
def defaultProject : CardProject :=
  { selectedFrameId := none
    selectedPhotoId := none
    photoTransform := DEFAULT_PHOTO_TRANSFORM
    textProperties := DEFAULT_TEXT_PROPERTIES }

/-- src/src/utils/storage.ts loadFrames (lines 21-29). The key/value read is
a value of type Except String (Option String): error models a thrown
exception, ok none a missing key. JSON.parse is a fallible parser argument.
Any exception and the JavaScript falsiness of the empty string yield the
empty collection. -/
def loadFrames (readResult : Except String (Option String))
    (parse : String → Except String (List FrameAsset)) : List FrameAsset :=
  match readResult with
  | Except.error _ => []
  | Except.ok none => []
  | Except.ok (some data) =>
    if data.isEmpty then []
    else
      match parse data with
      | Except.error _ => []
      | Except.ok frames => frames

/-- src/src/utils/storage.ts loadPhotos (lines 40-48), same structure as
loadFrames. -/
def loadPhotos (readResult : Except String (Option String))
    (parse : String → Except String (List PhotoAsset)) : List PhotoAsset :=
  match readResult with
  | Except.error _ => []
  | Except.ok none => []
  | Except.ok (some data) =>
    if data.isEmpty then []
    else
      match parse data with
      | Except.error _ => []
      | Except.ok photos => photos

/-- src/src/utils/storage.ts loadProject (lines 59-75): parsed value when
the read and parse succeed, the default project otherwise. -/
def loadProject (readResult : Except String (Option String))
    (parse : String → Except String CardProject) : CardProject :=
  match readResult with
  | Except.error _ => defaultProject
  | Except.ok none => defaultProject
  | Except.ok (some data) =>
    if data.isEmpty then defaultProject
    else
      match parse data with
      | Except.error _ => defaultProject
      | Except.ok project => project

/-! Concrete inputs used by witnesses and counterexamples. -/

/-- A fully opaque mid-gray pixel: not a window pixel. -/
def midGrayPixel : Pixel := { r := 128, g := 128, b := 128, a := 255 }

/-- A fully transparent pixel: always a window pixel. -/
def transparentPixel : Pixel := { r := 0, g := 0, b := 0, a := 0 }

/-- A dark fully opaque pixel: not a window pixel. -/
def opaquePixel : Pixel := { r := 10, g := 10, b := 10, a := 255 }

/-- An image every pixel of which is fully opaque mid-gray. -/
def grayPx : ℕ → ℕ → Pixel := fun _ _ => midGrayPixel

/-- An image every pixel of which is fully transparent. -/
def clearPx : ℕ → ℕ → Pixel := fun _ _ => transparentPixel

/-- The image of the spec example: a fully transparent 200 by 200 square with
top-left corner (100, 100) on an otherwise opaque 400 by 400 image (the
transparent pixels are those with 100 <= x <= 299 and 100 <= y <= 299). -/
def specExamplePx : ℕ → ℕ → Pixel := fun x y =>
  if 100 ≤ x ∧ x ≤ 299 ∧ 100 ≤ y ∧ y ≤ 299 then transparentPixel else opaquePixel

/-- A sample frame whose native size equals the canvas, carrying a 100 by 100
mask at the origin. -/
def sampleFrame : FrameAsset :=
  { id := "f1", name := "frame one", imageData := "", width := 1080
    height := 1920, mask := some { x := 0, y := 0, width := 100, height := 100 } }

/-- The same frame without a mask. -/
def sampleFrameNoMask : FrameAsset :=
  { id := "f1", name := "frame one", imageData := "", width := 1080
    height := 1920, mask := none }

/-- A sample 50 by 100 photo. -/
def samplePhoto : PhotoAsset :=
  { id := "p1", name := "photo one", imageData := "", width := 50, height := 100 }

/-- A project that already selected the sample photo and holds a transform
different from DEFAULT_PHOTO_TRANSFORM. -/
def sampleProject : CardProject :=
  { selectedFrameId := none
    selectedPhotoId := some "p1"
    photoTransform := { x := 7, y := 8, scale := 2, rotation := 0 }
    textProperties := DEFAULT_TEXT_PROPERTIES }

/-- A sample saved card (used to fill the gallery). -/
def sampleCardA : SavedCard :=
  { id := "card-1", timestamp := "2026-01-01", imageData := "old"
    frameId := some "f1", photoId := some "p1" }

/-- Another sample saved card (the newly saved one). -/
def sampleCardB : SavedCard :=
  { id := "card-2", timestamp := "2026-01-02", imageData := "new"
    frameId := some "f1", photoId := some "p1" }

/-! Helper lemmas about the fit and fill scales. -/

/-- In fit mode the scaled photo is no larger than the mask in either
dimension. -/
lemma fit_scale_le (pw ph : ℚ) (mask : MaskGeometry) (hpw : 0 < pw)
    (hph : 0 < ph) (hmw : 0 < mask.width) (hmh : 0 < mask.height) :
    pw * (calculateFitTransform pw ph mask FitMode.fit).scale ≤ mask.width ∧
    ph * (calculateFitTransform pw ph mask FitMode.fit).scale ≤ mask.height := by
  have hscale : (calculateFitTransform pw ph mask FitMode.fit).scale =
      if pw / ph > mask.width / mask.height then mask.width / pw
      else mask.height / ph := rfl
  rw [hscale]
  by_cases hc : pw / ph > mask.width / mask.height
  · rw [if_pos hc]
    have hcc : mask.width * ph < pw * mask.height := (div_lt_div_iff₀ hmh hph).mp hc
    constructor
    · rw [mul_comm, div_mul_cancel₀ _ hpw.ne']
    · rw [mul_comm, div_mul_eq_mul_div, div_le_iff₀ hpw]
      linarith
  · rw [if_neg hc]
    push_neg at hc
    have hcc : pw * mask.height ≤ mask.width * ph := (div_le_div_iff₀ hph hmh).mp hc
    constructor
    · rw [mul_comm, div_mul_eq_mul_div, div_le_iff₀ hph]
      linarith
    · rw [mul_comm, div_mul_cancel₀ _ hph.ne']

/-- In fill mode the scaled photo is at least as large as the mask in either
dimension. -/
lemma fill_scale_ge (pw ph : ℚ) (mask : MaskGeometry) (hpw : 0 < pw)
    (hph : 0 < ph) (hmw : 0 < mask.width) (hmh : 0 < mask.height) :
    mask.width ≤ pw * (calculateFitTransform pw ph mask FitMode.fill).scale ∧
    mask.height ≤ ph * (calculateFitTransform pw ph mask FitMode.fill).scale := by
  have hscale : (calculateFitTransform pw ph mask FitMode.fill).scale =
      if pw / ph > mask.width / mask.height then mask.height / ph
      else mask.width / pw := rfl
  rw [hscale]
  by_cases hc : pw / ph > mask.width / mask.height
  · rw [if_pos hc]
    have hcc : mask.width * ph < pw * mask.height := (div_lt_div_iff₀ hmh hph).mp hc
    constructor
    · rw [mul_comm, div_mul_eq_mul_div, le_div_iff₀ hph]
      linarith
    · rw [mul_comm, div_mul_cancel₀ _ hph.ne']
  · rw [if_neg hc]
    push_neg at hc
    have hcc : pw * mask.height ≤ mask.width * ph := (div_le_div_iff₀ hph hmh).mp hc
    constructor
    · rw [mul_comm, div_mul_cancel₀ _ hpw.ne']
    · rw [mul_comm, div_mul_eq_mul_div, le_div_iff₀ hpw]
      linarith

/-! Claim theorems about calculateFitTransform. -/

/-- C1: for every photo and mask with strictly positive dimensions,
calculateFitTransform in fit mode returns a transform whose scaled photo
dimensions satisfy photoWidth * scale <= mask.width and
photoHeight * scale <= mask.height: the entire photo is contained in the
mask (exact rational arithmetic in place of floating-point tolerance). -/
theorem fit_mode_contains_photo (pw ph : ℚ) (mask : MaskGeometry)
    (hpw : 0 < pw) (hph : 0 < ph) (hmw : 0 < mask.width) (hmh : 0 < mask.height) :
    pw * (calculateFitTransform pw ph mask FitMode.fit).scale ≤ mask.width ∧
    ph * (calculateFitTransform pw ph mask FitMode.fit).scale ≤ mask.height :=
  fit_scale_le pw ph mask hpw hph hmw hmh

/-- Witness for C1 at photo 50 by 100 and mask 100 by 100. -/
theorem fit_mode_contains_photo_witness :
    (0 : ℚ) < 50 ∧ (0 : ℚ) < 100 ∧
    (50 * (calculateFitTransform 50 100 (MaskGeometry.mk 0 0 100 100) FitMode.fit).scale ≤ 100 ∧
      100 * (calculateFitTransform 50 100 (MaskGeometry.mk 0 0 100 100) FitMode.fit).scale ≤ 100) :=
  ⟨by norm_num, by norm_num,
    fit_mode_contains_photo 50 100 (MaskGeometry.mk 0 0 100 100)
      (by norm_num) (by norm_num) (by norm_num) (by norm_num)⟩

/-- C2: for every photo and mask with strictly positive dimensions,
calculateFitTransform in fill mode (which is the declared default mode)
returns a transform whose scaled photo dimensions satisfy
mask.width <= photoWidth * scale and mask.height <= photoHeight * scale:
the mask is fully covered. -/
theorem fill_mode_covers_mask (pw ph : ℚ) (mask : MaskGeometry)
    (hpw : 0 < pw) (hph : 0 < ph) (hmw : 0 < mask.width) (hmh : 0 < mask.height) :
    defaultFitMode = FitMode.fill ∧
    mask.width ≤ pw * (calculateFitTransform pw ph mask FitMode.fill).scale ∧
    mask.height ≤ ph * (calculateFitTransform pw ph mask FitMode.fill).scale :=
  ⟨rfl, fill_scale_ge pw ph mask hpw hph hmw hmh⟩

/-- Witness for C2 at photo 50 by 100 and mask 100 by 100. -/
theorem fill_mode_covers_mask_witness :
    (0 : ℚ) < 50 ∧ (0 : ℚ) < 100 ∧
    (defaultFitMode = FitMode.fill ∧
      100 ≤ 50 * (calculateFitTransform 50 100 (MaskGeometry.mk 0 0 100 100) FitMode.fill).scale ∧
      100 ≤ 100 * (calculateFitTransform 50 100 (MaskGeometry.mk 0 0 100 100) FitMode.fill).scale) :=
  ⟨by norm_num, by norm_num,
    fill_mode_covers_mask 50 100 (MaskGeometry.mk 0 0 100 100)
      (by norm_num) (by norm_num) (by norm_num) (by norm_num)⟩

/-- C3: for every photo and mask with positive dimensions and every mode,
the transform is horizontally mask-centered,
x = mask.x + (mask.width - scaledWidth) / 2; in center mode
y = mask.y + (mask.height - scaledHeight) / 2 exactly; in fit and fill
modes y = mask.y - (scaledHeight - mask.height) * 0.2, the fixed upward
face-priority bias (scaledWidth and scaledHeight written through the
returned scale). -/
theorem transform_position_formulas (pw ph : ℚ) (mask : MaskGeometry)
    (mode : FitMode) (hpw : 0 < pw) (hph : 0 < ph)
    (hmw : 0 < mask.width) (hmh : 0 < mask.height) :
    (calculateFitTransform pw ph mask mode).x =
      mask.x + (mask.width - pw * (calculateFitTransform pw ph mask mode).scale) / 2 ∧
    (mode = FitMode.center →
      (calculateFitTransform pw ph mask mode).y =
        mask.y + (mask.height - ph * (calculateFitTransform pw ph mask mode).scale) / 2) ∧
    ((mode = FitMode.fit ∨ mode = FitMode.fill) →
      (calculateFitTransform pw ph mask mode).y =
        mask.y - (ph * (calculateFitTransform pw ph mask mode).scale - mask.height) * 0.2) := by
  cases mode with
  | fit => exact ⟨rfl, fun h => absurd h (by decide), fun _ => rfl⟩
  | fill => exact ⟨rfl, fun h => absurd h (by decide), fun _ => rfl⟩
  | center => exact ⟨rfl, fun _ => rfl, fun h => absurd h (by decide)⟩

/-- Witness for C3 at photo 50 by 100, mask 100 by 100, fill mode. -/
theorem transform_position_formulas_witness :
    (0 : ℚ) < 50 ∧ (0 : ℚ) < 100 ∧
    ((calculateFitTransform 50 100 (MaskGeometry.mk 0 0 100 100) FitMode.fill).x =
        0 + (100 - 50 * (calculateFitTransform 50 100 (MaskGeometry.mk 0 0 100 100) FitMode.fill).scale) / 2 ∧
      (FitMode.fill = FitMode.center →
        (calculateFitTransform 50 100 (MaskGeometry.mk 0 0 100 100) FitMode.fill).y =
          0 + (100 - 100 * (calculateFitTransform 50 100 (MaskGeometry.mk 0 0 100 100) FitMode.fill).scale) / 2) ∧
      ((FitMode.fill = FitMode.fit ∨ FitMode.fill = FitMode.fill) →
        (calculateFitTransform 50 100 (MaskGeometry.mk 0 0 100 100) FitMode.fill).y =
          0 - (100 * (calculateFitTransform 50 100 (MaskGeometry.mk 0 0 100 100) FitMode.fill).scale - 100) * 0.2)) :=
  ⟨by norm_num, by norm_num,
    transform_position_formulas 50 100 (MaskGeometry.mk 0 0 100 100) FitMode.fill
      (by norm_num) (by norm_num) (by norm_num) (by norm_num)⟩

/-- C10: in fit mode the scaled photo rectangle lies entirely inside the
mask rectangle on both axes; in particular the vertical face-priority bias
formula, at negative overflow, never pushes the photo outside the mask. -/
theorem fit_mode_inside_mask (pw ph : ℚ) (mask : MaskGeometry)
    (hpw : 0 < pw) (hph : 0 < ph) (hmw : 0 < mask.width) (hmh : 0 < mask.height) :
    mask.x ≤ (calculateFitTransform pw ph mask FitMode.fit).x ∧
    (calculateFitTransform pw ph mask FitMode.fit).x +
        pw * (calculateFitTransform pw ph mask FitMode.fit).scale ≤
      mask.x + mask.width ∧
    mask.y ≤ (calculateFitTransform pw ph mask FitMode.fit).y ∧
    (calculateFitTransform pw ph mask FitMode.fit).y +
        ph * (calculateFitTransform pw ph mask FitMode.fit).scale ≤
      mask.y + mask.height := by
  obtain ⟨hsw, hsh⟩ := fit_scale_le pw ph mask hpw hph hmw hmh
  have hx : (calculateFitTransform pw ph mask FitMode.fit).x =
      mask.x + (mask.width - pw * (calculateFitTransform pw ph mask FitMode.fit).scale) / 2 := rfl
  have hy : (calculateFitTransform pw ph mask FitMode.fit).y =
      mask.y - (ph * (calculateFitTransform pw ph mask FitMode.fit).scale - mask.height) * 0.2 := rfl
  have h02 : (0.2 : ℚ) = 1 / 5 := by norm_num
  rw [hx, hy, h02]
  refine ⟨by linarith, by linarith, by linarith, by linarith⟩

/-- Witness for C10 at photo 50 by 100 and mask 100 by 100. -/
theorem fit_mode_inside_mask_witness :
    (0 : ℚ) < 50 ∧ (0 : ℚ) < 100 ∧
    ((0 : ℚ) ≤ (calculateFitTransform 50 100 (MaskGeometry.mk 0 0 100 100) FitMode.fit).x ∧
      (calculateFitTransform 50 100 (MaskGeometry.mk 0 0 100 100) FitMode.fit).x +
          50 * (calculateFitTransform 50 100 (MaskGeometry.mk 0 0 100 100) FitMode.fit).scale ≤
        0 + 100 ∧
      (0 : ℚ) ≤ (calculateFitTransform 50 100 (MaskGeometry.mk 0 0 100 100) FitMode.fit).y ∧
      (calculateFitTransform 50 100 (MaskGeometry.mk 0 0 100 100) FitMode.fit).y +
          100 * (calculateFitTransform 50 100 (MaskGeometry.mk 0 0 100 100) FitMode.fit).scale ≤
        0 + 100) :=
  ⟨by norm_num, by norm_num,
    fit_mode_inside_mask 50 100 (MaskGeometry.mk 0 0 100 100)
      (by norm_num) (by norm_num) (by norm_num) (by norm_num)⟩

/-! Coordinate-space round trip, saved-card bound, storage defaults. -/

/-- C7: converting a mask from frame-native space to canvas space and back
through the inverse of the same scale and centering offsets recovers the
original mask exactly (rational arithmetic in place of floating-point
tolerance), for every frame with positive dimensions. -/
theorem mask_canvas_round_trip (frameWidth frameHeight : ℚ) (mask : MaskGeometry)
    (hfw : 0 < frameWidth) (hfh : 0 < frameHeight) :
    maskFromCanvas frameWidth frameHeight
      (maskToCanvas frameWidth frameHeight mask) = mask := by
  have hs : 0 < min (CANVAS_WIDTH / frameWidth) (CANVAS_HEIGHT / frameHeight) := by
    refine lt_min ?_ ?_
    · exact div_pos (by norm_num [CANVAS_WIDTH]) hfw
    · exact div_pos (by norm_num [CANVAS_HEIGHT]) hfh
  obtain ⟨mx, my, mw, mh⟩ := mask
  simp only [maskToCanvas, maskFromCanvas, MaskGeometry.mk.injEq]
  refine ⟨?_, ?_, ?_, ?_⟩ <;> field_simp

/-- Witness for C7 at a 600 by 800 frame and the mask (10, 20, 30, 40). -/
theorem mask_canvas_round_trip_witness :
    (0 : ℚ) < 600 ∧ (0 : ℚ) < 800 ∧
    maskFromCanvas 600 800
        (maskToCanvas 600 800 (MaskGeometry.mk 10 20 30 40)) =
      MaskGeometry.mk 10 20 30 40 :=
  ⟨by norm_num, by norm_num,
    mask_canvas_round_trip 600 800 (MaskGeometry.mk 10 20 30 40)
      (by norm_num) (by norm_num)⟩

/-- C8: starting from a saved-card list of at most 20 entries, saving a card
keeps the list at no more than 20 entries, puts the new card first, appends
in front without eviction while fewer than 20 entries are stored, and at
exactly 20 entries evicts the oldest (last) entry. -/
theorem handleSaveCard_bounded_newest_first (savedCards : List SavedCard)
    (newCard : SavedCard) (h : savedCards.length ≤ 20) :
    (handleSaveCard savedCards newCard).length ≤ 20 ∧
    (handleSaveCard savedCards newCard).head? = some newCard ∧
    (savedCards.length < 20 →
      handleSaveCard savedCards newCard = newCard :: savedCards) ∧
    (savedCards.length = 20 →
      handleSaveCard savedCards newCard = newCard :: savedCards.dropLast) := by
  by_cases h20 : savedCards.length = 20
  · have hlen : (newCard :: savedCards).length > 20 := by simp [h20]
    have heq : handleSaveCard savedCards newCard = (newCard :: savedCards).dropLast := by
      simp only [handleSaveCard]
      rw [if_pos hlen]
    obtain ⟨c, cs⟩ :
        ∃ c cs, savedCards = c :: cs := by
      cases savedCards with
      | nil => simp at h20
      | cons c cs => exact ⟨c, cs, rfl⟩
    obtain ⟨cs2, hcs⟩ := cs
    subst hcs
    refine ⟨?_, ?_, ?_, ?_⟩
    · rw [heq, List.length_dropLast]
      simp at h20 ⊢
      omega
    · rw [heq, List.dropLast_cons₂]
      rfl
    · intro hlt
      omega
    · intro _
      rw [heq, List.dropLast_cons₂]
  · have hlt : savedCards.length < 20 := by omega
    have hlen : ¬(newCard :: savedCards).length > 20 := by
      simp
      omega
    have heq : handleSaveCard savedCards newCard = newCard :: savedCards := by
      simp only [handleSaveCard]
      rw [if_neg hlen]
    refine ⟨?_, ?_, fun _ => heq, fun he => absurd he h20⟩
    · rw [heq]
      simp
      omega
    · rw [heq]
      rfl

/-- Witness for C8 on a gallery already holding 20 copies of sampleCardA. -/
theorem handleSaveCard_bounded_newest_first_witness :
    (List.replicate 20 sampleCardA).length ≤ 20 ∧
    ((handleSaveCard (List.replicate 20 sampleCardA) sampleCardB).length ≤ 20 ∧
      (handleSaveCard (List.replicate 20 sampleCardA) sampleCardB).head? = some sampleCardB ∧
      ((List.replicate 20 sampleCardA).length < 20 →
        handleSaveCard (List.replicate 20 sampleCardA) sampleCardB =
          sampleCardB :: List.replicate 20 sampleCardA) ∧
      ((List.replicate 20 sampleCardA).length = 20 →
        handleSaveCard (List.replicate 20 sampleCardA) sampleCardB =
          sampleCardB :: (List.replicate 20 sampleCardA).dropLast)) :=
  ⟨by simp,
    handleSaveCard_bounded_newest_first (List.replicate 20 sampleCardA) sampleCardB (by simp)⟩

/-- C9: each of the three persisted reads degrades to its safe default when
the store read throws or finds no value: empty frame and photo collections
and the default project. The Lean models are total functions into the
result types (no exception escapes); a thrown exception is the error case
of the read argument. -/
theorem storage_load_failure_defaults (e : String)
    (readResult : Except String (Option String))
    (parseF : String → Except String (List FrameAsset))
    (parseP : String → Except String (List PhotoAsset))
    (parseJ : String → Except String CardProject)
    (h : readResult = Except.error e ∨ readResult = Except.ok none) :
    loadFrames readResult parseF = [] ∧
    loadPhotos readResult parseP = [] ∧
    loadProject readResult parseJ = defaultProject := by
  rcases h with h | h <;> subst h <;> exact ⟨rfl, rfl, rfl⟩

/-- Witness for C9: a read that throws. -/
theorem storage_load_failure_defaults_witness :
    ((Except.error "quota exceeded" : Except String (Option String)) =
        Except.error "quota exceeded" ∨
      (Except.error "quota exceeded" : Except String (Option String)) =
        Except.ok none) ∧
    (loadFrames (Except.error "quota exceeded")
        (fun _ => Except.error "bad json") = [] ∧
      loadPhotos (Except.error "quota exceeded")
        (fun _ => Except.error "bad json") = [] ∧
      loadProject (Except.error "quota exceeded")
        (fun _ => Except.error "bad json") = defaultProject) :=
  ⟨Or.inl rfl,
    storage_load_failure_defaults "quota exceeded" (Except.error "quota exceeded")
      (fun _ => Except.error "bad json") (fun _ => Except.error "bad json")
      (fun _ => Except.error "bad json") (Or.inl rfl)⟩

/-! Frame selection (C4). -/

/-- C4 counterexample: selecting a frame that has no mask while a photo is
selected does NOT reset the photo transform to the default centered region;
the previous transform (7, 8, 2, 0) is kept unchanged, and it differs from
DEFAULT_PHOTO_TRANSFORM. -/
theorem handleFrameSelect_no_mask_keeps_previous :
    (handleFrameSelect [sampleFrameNoMask] [samplePhoto] sampleProject "f1").photoTransform =
      PhotoTransform.mk 7 8 2 0 ∧
    (handleFrameSelect [sampleFrameNoMask] [samplePhoto] sampleProject "f1").photoTransform ≠
      DEFAULT_PHOTO_TRANSFORM := by
  constructor
  · rfl
  · intro hcontra
    simp only [handleFrameSelect, sampleFrameNoMask, samplePhoto, sampleProject,
      DEFAULT_PHOTO_TRANSFORM] at hcontra
    cases hcontra

/-- C4 as amended: selecting a new frame atomically sets the new frame id
(selection and transform change in one state transition, photo selection
and text untouched); when the frame is found, has a mask and a photo is
selected, the transform is recomputed by calculateFitTransform in fill mode
against the mask converted to canvas coordinates; when the selected frame
has no mask, or no frame or photo is found, the previous photo transform is
kept unchanged. -/
theorem handleFrameSelect_transition (frames : List FrameAsset)
    (photos : List PhotoAsset) (prev : CardProject) (frameId : String) :
    (handleFrameSelect frames photos prev frameId).selectedFrameId = some frameId ∧
    (handleFrameSelect frames photos prev frameId).selectedPhotoId = prev.selectedPhotoId ∧
    (handleFrameSelect frames photos prev frameId).textProperties = prev.textProperties ∧
    (∀ f p m, frames.find? (fun fr => fr.id == frameId) = some f →
      photos.find? (fun ph => prev.selectedPhotoId == some ph.id) = some p →
      f.mask = some m →
      (handleFrameSelect frames photos prev frameId).photoTransform =
        calculateFitTransform p.width p.height
          (maskToCanvas f.width f.height m) FitMode.fill) ∧
    (∀ f, frames.find? (fun fr => fr.id == frameId) = some f → f.mask = none →
      (handleFrameSelect frames photos prev frameId).photoTransform =
        prev.photoTransform) ∧
    (frames.find? (fun fr => fr.id == frameId) = none →
      (handleFrameSelect frames photos prev frameId).photoTransform =
        prev.photoTransform) ∧
    (photos.find? (fun ph => prev.selectedPhotoId == some ph.id) = none →
      (handleFrameSelect frames photos prev frameId).photoTransform =
        prev.photoTransform) := by
  refine ⟨rfl, rfl, rfl, ?_, ?_, ?_, ?_⟩
  · intro f p m hf hp hm
    simp only [handleFrameSelect, hf, hp, hm]
  · intro f hf hm
    obtain ⟨fid, fname, fdata, fw, fh, fmask⟩ := f
    replace hm : fmask = none := hm
    subst hm
    simp only [handleFrameSelect, hf]
    cases hp : photos.find? (fun ph => prev.selectedPhotoId == some ph.id) with
    | none => rfl
    | some p => rfl
  · intro hf
    simp only [handleFrameSelect, hf]
  · intro hp
    simp only [handleFrameSelect, hp]
    cases frames.find? (fun fr => fr.id == frameId) <;> rfl

/-- Witness for C4 as amended: selecting sampleFrame (canvas-sized, mask
100 by 100 at the origin) with samplePhoto (50 by 100) selected yields the
fill transform (0, -20, 2, 0), and the frame id is set atomically. -/
theorem handleFrameSelect_transition_witness :
    (handleFrameSelect [sampleFrame] [samplePhoto] sampleProject "f1").selectedFrameId =
      some "f1" ∧
    (handleFrameSelect [sampleFrame] [samplePhoto] sampleProject "f1").photoTransform =
      PhotoTransform.mk 0 (-20) 2 0 := by
  have h := handleFrameSelect_transition [sampleFrame] [samplePhoto] sampleProject "f1"
  refine ⟨h.1, ?_⟩
  have hmask : sampleFrame.mask =
      some (MaskGeometry.mk 0 0 100 100) := rfl
  have ht := h.2.2.2.1 sampleFrame samplePhoto (MaskGeometry.mk 0 0 100 100)
    (by rfl) (by rfl) hmask
  rw [ht]
  have hfw : sampleFrame.width = 1080 := rfl
  have hfh : sampleFrame.height = 1920 := rfl
  have hpw : samplePhoto.width = 50 := rfl
  have hph : samplePhoto.height = 100 := rfl
  rw [hfw, hfh, hpw, hph]
  have hm : maskToCanvas 1080 1920
      (MaskGeometry.mk 0 0 100 100) = MaskGeometry.mk 0 0 100 100 := by
    simp only [maskToCanvas, CANVAS_WIDTH, CANVAS_HEIGHT]
    norm_num
  rw [hm]
  have hscale : (calculateFitTransform 50 100 (MaskGeometry.mk 0 0 100 100) FitMode.fill).scale =
      if (50 : ℚ) / 100 > (100 : ℚ) / 100 then (100 : ℚ) / 100 else (100 : ℚ) / 50 := rfl
  have hx : (calculateFitTransform 50 100 (MaskGeometry.mk 0 0 100 100) FitMode.fill).x =
      0 + (100 - 50 * (calculateFitTransform 50 100 (MaskGeometry.mk 0 0 100 100) FitMode.fill).scale) / 2 := rfl
  have hy : (calculateFitTransform 50 100 (MaskGeometry.mk 0 0 100 100) FitMode.fill).y =
      0 - (100 * (calculateFitTransform 50 100 (MaskGeometry.mk 0 0 100 100) FitMode.fill).scale - 100) * 0.2 := rfl
  have hrot : (calculateFitTransform 50 100 (MaskGeometry.mk 0 0 100 100) FitMode.fill).rotation = 0 := rfl
  have hscale2 : (calculateFitTransform 50 100 (MaskGeometry.mk 0 0 100 100) FitMode.fill).scale = 2 := by
    rw [hscale]
    norm_num
  cases hcalc : calculateFitTransform 50 100 (MaskGeometry.mk 0 0 100 100) FitMode.fill with
  | mk tx ty ts tr =>
    rw [hcalc] at hscale2 hx hy hrot
    simp only at hscale2 hx hy hrot
    rw [PhotoTransform.mk.injEq]
    subst hscale2
    refine ⟨by rw [hx]; norm_num, by rw [hy]; norm_num, rfl, hrot⟩

/-! Characterization of the pixel scan of detectTransparentRegion. -/

/-- A fold whose step fixes every element of the list leaves the initial
state unchanged. -/
lemma foldl_fixed {α β : Type} (f : β → α → β) :
    ∀ (xs : List α) (s : β), (∀ a ∈ xs, ∀ t, f t a = t) → xs.foldl f s = s := by
  intro xs
  induction xs with
  | nil => intro s _; rfl
  | cons a as ih =>
    intro s h
    rw [List.foldl_cons, h a (List.mem_cons_self a as)]
    exact ih s fun b hb t => h b (List.mem_cons_of_mem a hb) t

/-- A non-window pixel leaves the scan state unchanged. -/
lemma scanPixel_no (px : ℕ → ℕ → Pixel) (y x : ℕ) (s : ScanState)
    (h : isWindowPixel (px x y) = false) : scanPixel px s y x = s := by
  simp [scanPixel, h]

/-- A window pixel extends the bounding box and sets the flag. -/
lemma scanPixel_yes (px : ℕ → ℕ → Pixel) (y x : ℕ) (s : ScanState)
    (h : isWindowPixel (px x y) = true) :
    scanPixel px s y x =
      ScanState.mk (min s.minX x) (min s.minY y) (max s.maxX x) (max s.maxY y) true := by
  simp [scanPixel, h]

/-- A row without window pixels leaves the scan state unchanged. -/
lemma scanRow_no_window (px : ℕ → ℕ → Pixel) (W y : ℕ) (s : ScanState)
    (h : ∀ x, x < W → isWindowPixel (px x y) = false) : scanRow px W y s = s := by
  unfold scanRow
  exact foldl_fixed _ _ _ fun x hx t => scanPixel_no px y x t (h x (List.mem_range.mp hx))

/-- Scanning a row whose window pixels are exactly those with
a <= x <= b, up to column b inclusive: the bounding box picks up a and b
and the flag is set. -/
lemma scanRow_ramp (px : ℕ → ℕ → Pixel) (y a : ℕ) (s : ScanState)
    (hF : ∀ x, x < a → isWindowPixel (px x y) = false) :
    ∀ b, a ≤ b → (∀ x, a ≤ x → x ≤ b → isWindowPixel (px x y) = true) →
    scanRow px (b + 1) y s =
      ScanState.mk (min s.minX a) (min s.minY y) (max s.maxX b) (max s.maxY y) true := by
  intro b hab
  induction b, hab using Nat.le_induction with
  | base =>
    intro hT
    unfold scanRow
    rw [List.range_succ, List.foldl_append]
    rw [foldl_fixed _ (List.range a) s
      fun x hx t => scanPixel_no px y x t (hF x (List.mem_range.mp hx))]
    simp only [List.foldl_cons, List.foldl_nil]
    rw [scanPixel_yes px y a s (hT a le_rfl le_rfl)]
  | succ n hn ih =>
    intro hT
    have hprev := ih fun x hx1 hx2 => hT x hx1 (by omega)
    unfold scanRow at hprev ⊢
    rw [List.range_succ, List.foldl_append, hprev]
    simp only [List.foldl_cons, List.foldl_nil]
    rw [scanPixel_yes px y (n + 1) _ (hT (n + 1) (by omega) le_rfl)]
    simp only [ScanState.mk.injEq]
    refine ⟨by omega, by omega, by omega, by omega, trivial⟩

/-- Scanning a full row of width W whose window pixels are exactly those
with a <= x <= b, where b < W. -/
lemma scanRow_rect (px : ℕ → ℕ → Pixel) (y a b : ℕ) (s : ScanState)
    (hab : a ≤ b)
    (hT : ∀ x, a ≤ x → x ≤ b → isWindowPixel (px x y) = true) :
    ∀ W, b + 1 ≤ W →
    (∀ x, x < a ∨ (b < x ∧ x < W) → isWindowPixel (px x y) = false) →
    scanRow px W y s =
      ScanState.mk (min s.minX a) (min s.minY y) (max s.maxX b) (max s.maxY y) true := by
  intro W hbW
  induction W, hbW using Nat.le_induction with
  | base =>
    intro hF
    exact scanRow_ramp px y a s (fun x hx => hF x (Or.inl hx)) b hab hT
  | succ n hn ih =>
    intro hF
    have hprev := ih fun x hx => by
      refine hF x ?_
      rcases hx with h | ⟨h1, h2⟩
      · exact Or.inl h
      · exact Or.inr ⟨h1, by omega⟩
    unfold scanRow at hprev ⊢
    rw [List.range_succ, List.foldl_append, hprev]
    simp only [List.foldl_cons, List.foldl_nil]
    rw [scanPixel_no px y n _ (hF n (Or.inr ⟨by omega, by omega⟩))]

/-- Scanning the rows 0 .. d of a W-wide image whose window pixels are
exactly the rectangle a <= x <= b, c <= y <= d. -/
lemma scanRows_ramp (px : ℕ → ℕ → Pixel) (W a b c : ℕ) (s : ScanState)
    (hab : a ≤ b) (hbW : b + 1 ≤ W)
    (hFrows : ∀ y, y < c → ∀ x, x < W → isWindowPixel (px x y) = false) :
    ∀ d, c ≤ d →
    (∀ y, c ≤ y → y ≤ d →
      (∀ x, a ≤ x → x ≤ b → isWindowPixel (px x y) = true) ∧
      (∀ x, x < a ∨ (b < x ∧ x < W) → isWindowPixel (px x y) = false)) →
    (List.range (d + 1)).foldl (fun t y => scanRow px W y t) s =
      ScanState.mk (min s.minX a) (min s.minY c) (max s.maxX b) (max s.maxY d) true := by
  intro d hcd
  induction d, hcd using Nat.le_induction with
  | base =>
    intro hrows
    rw [List.range_succ, List.foldl_append]
    rw [foldl_fixed _ (List.range c) s
      fun y hy t => scanRow_no_window px W y t (hFrows y (List.mem_range.mp hy))]
    simp only [List.foldl_cons, List.foldl_nil]
    exact scanRow_rect px c a b s hab ((hrows c le_rfl le_rfl).1) W hbW
      ((hrows c le_rfl le_rfl).2)
  | succ n hn ih =>
    intro hrows
    have hprev := ih fun y hy1 hy2 => hrows y hy1 (by omega)
    rw [List.range_succ, List.foldl_append, hprev]
    simp only [List.foldl_cons, List.foldl_nil]
    rw [scanRow_rect px (n + 1) a b _ hab ((hrows (n + 1) (by omega) le_rfl).1) W hbW
      ((hrows (n + 1) (by omega) le_rfl).2)]
    simp only [ScanState.mk.injEq]
    refine ⟨by omega, by omega, by omega, by omega, trivial⟩

/-- Full characterization of scanImage on a rectangle image: when the window
pixels of the visible grid are exactly those with a <= x <= b and
c <= y <= d, the scan returns exactly that bounding box with the flag
set. -/
lemma scanImage_rect (W H a b c d : ℕ) (px : ℕ → ℕ → Pixel)
    (hab : a ≤ b) (hbW : b < W) (hcd : c ≤ d) (hdH : d < H)
    (hT : ∀ x y, a ≤ x → x ≤ b → c ≤ y → y ≤ d → isWindowPixel (px x y) = true)
    (hF : ∀ x y, x < W → y < H → ¬(a ≤ x ∧ x ≤ b ∧ c ≤ y ∧ y ≤ d) →
      isWindowPixel (px x y) = false) :
    scanImage W H px = ScanState.mk a c b d true := by
  obtain ⟨k, rfl⟩ : ∃ k, H = (d + 1) + k := ⟨H - (d + 1), by omega⟩
  unfold scanImage
  rw [List.range_add, List.foldl_append]
  rw [scanRows_ramp px W a b c _ hab (by omega)
    (fun y hy x hx => hF x y hx (by omega) (by omega))
    d hcd
    (fun y hy1 hy2 =>
      ⟨fun x hx1 hx2 => hT x y hx1 hx2 hy1 hy2,
        fun x hx => hF x y (by omega) (by omega) (by omega)⟩)]
  rw [List.foldl_map]
  rw [foldl_fixed _ (List.range k) _
    fun i hi t => scanRow_no_window px W ((d + 1) + i) t
      (fun x hx => hF x ((d + 1) + i) hx
        (by have := List.mem_range.mp hi; omega) (by omega))]
  simp only [ScanState.mk.injEq]
  refine ⟨by omega, by omega, by omega, by omega, trivial⟩

/-- scanImage on an image with no window pixel at all returns the initial
state (flag still false). -/
lemma scanImage_no_window (W H : ℕ) (px : ℕ → ℕ → Pixel)
    (h : ∀ x y, x < W → y < H → isWindowPixel (px x y) = false) :
    scanImage W H px = ScanState.mk W H 0 0 false := by
  unfold scanImage
  exact foldl_fixed _ (List.range H) _
    fun y hy t => scanRow_no_window px W y t
      (fun x hx => h x y hx (List.mem_range.mp hy))

/-- When the scan found nothing, detection returns the fallback mask. -/
lemma detect_eq_fallback_of_not_found (W H : ℕ) (px : ℕ → ℕ → Pixel)
    (h : (scanImage W H px).found = false) :
    detectTransparentRegion W H px = fallbackMask W H := by
  simp only [detectTransparentRegion]
  rw [if_pos (Or.inl h)]

/-- When the detected bounding box is too small on either axis, detection
returns the fallback mask. -/
lemma detect_eq_fallback_of_small (W H : ℕ) (px : ℕ → ℕ → Pixel)
    (h : ((scanImage W H px).maxX : ℤ) - ((scanImage W H px).minX : ℤ) < 50 ∨
      ((scanImage W H px).maxY : ℤ) - ((scanImage W H px).minY : ℤ) < 50) :
    detectTransparentRegion W H px = fallbackMask W H := by
  simp only [detectTransparentRegion]
  rcases h with h | h
  · rw [if_pos (Or.inr (Or.inl h))]
  · rw [if_pos (Or.inr (Or.inr h))]

/-- When the scan found a large enough bounding box, detection returns the
padded box: x and y are the box corner minus 5 clamped at 0, width and
height are the box extent plus 10 capped by W - minX + 10 (resp.
H - minY + 10). -/
lemma detect_eq_padded (W H : ℕ) (px : ℕ → ℕ → Pixel)
    (h1 : (scanImage W H px).found = true)
    (h2 : (50 : ℤ) ≤ ((scanImage W H px).maxX : ℤ) - ((scanImage W H px).minX : ℤ))
    (h3 : (50 : ℤ) ≤ ((scanImage W H px).maxY : ℤ) - ((scanImage W H px).minY : ℤ)) :
    detectTransparentRegion W H px =
      MaskGeometry.mk
        (max 0 (((scanImage W H px).minX : ℚ) - 5))
        (max 0 (((scanImage W H px).minY : ℚ) - 5))
        (min ((W : ℚ) - ((scanImage W H px).minX : ℚ) + 5 * 2)
          (((scanImage W H px).maxX : ℚ) - ((scanImage W H px).minX : ℚ) + 5 * 2))
        (min ((H : ℚ) - ((scanImage W H px).minY : ℚ) + 5 * 2)
          (((scanImage W H px).maxY : ℚ) - ((scanImage W H px).minY : ℚ) + 5 * 2)) := by
  simp only [detectTransparentRegion]
  rw [if_neg]
  rintro (hc | hc | hc)
  · rw [h1] at hc
    cases hc
  · omega
  · omega

/-- The scan of the spec example image: the transparent square spans
pixels 100 .. 299 on both axes. -/
lemma scanImage_specExample :
    scanImage 400 400 specExamplePx = ScanState.mk 100 100 299 299 true := by
  apply scanImage_rect 400 400 100 299 100 299 specExamplePx
    (by omega) (by omega) (by omega) (by omega)
  · intro x y hx1 hx2 hy1 hy2
    simp only [specExamplePx]
    rw [if_pos ⟨hx1, hx2, hy1, hy2⟩]
    rfl
  · intro x y hxW hyH hnot
    simp only [specExamplePx]
    rw [if_neg hnot]
    rfl

/-- Detection on the spec example image returns the padded box
(95, 95, 209, 209). -/
lemma detect_specExample :
    detectTransparentRegion 400 400 specExamplePx =
      MaskGeometry.mk 95 95 209 209 := by
  have hs := scanImage_specExample
  rw [detect_eq_padded 400 400 specExamplePx
    (by rw [hs]) (by rw [hs]; decide) (by rw [hs]; decide), hs]
  rw [MaskGeometry.mk.injEq]
  norm_num

/-- The scan of a fully transparent 51 by 51 image. -/
lemma scanImage_clear51 :
    scanImage 51 51 clearPx = ScanState.mk 0 0 50 50 true := by
  apply scanImage_rect 51 51 0 50 0 50 clearPx
    (by omega) (by omega) (by omega) (by omega)
  · intro x y _ _ _ _
    rfl
  · intro x y hxW hyH hnot
    exact absurd ⟨Nat.zero_le x, by omega, Nat.zero_le y, by omega⟩ hnot

/-- Detection on the fully transparent 51 by 51 image returns the box
(0, 0, 60, 60). -/
lemma detect_clear51 :
    detectTransparentRegion 51 51 clearPx = MaskGeometry.mk 0 0 60 60 := by
  have hs := scanImage_clear51
  rw [detect_eq_padded 51 51 clearPx
    (by rw [hs]) (by rw [hs]; decide) (by rw [hs]; decide), hs]
  rw [MaskGeometry.mk.injEq]
  norm_num

/-! Claims C5 and C6 about detectTransparentRegion. -/

/-- C5 counterexample: on a fully transparent 51 by 51 image the detected
window bounding box is large enough, yet the returned mask (0, 0, 60, 60)
extends past the right and bottom image edges: x + width and y + height
both exceed the image size 51, so the result is NOT clamped to lie within
the image bounds. -/
theorem detect_mask_exceeds_image_bounds :
    (detectTransparentRegion 51 51 clearPx).x +
        (detectTransparentRegion 51 51 clearPx).width > 51 ∧
    (detectTransparentRegion 51 51 clearPx).y +
        (detectTransparentRegion 51 51 clearPx).height > 51 := by
  rw [detect_clear51]
  norm_num

/-- C5 as amended: whenever the scan finds a sufficiently large window
bounding box (both extents at least the 50 px threshold), the returned mask
is the bounding box expanded by the fixed 5 px padding with x and y clamped
at 0, width = min(W - minX + 10, maxX - minX + 10) and height analogous;
x + width is NOT clamped to the image width (it can overshoot, see the
counterexample). On the spec example (fully transparent 200 by 200 square
at (100, 100) in an otherwise opaque 400 by 400 image) the result is
(95, 95, 209, 209), approximately the claimed (95, 95, 210, 210). -/
theorem detectTransparentRegion_amended (W H : ℕ) (px : ℕ → ℕ → Pixel)
    (h1 : (scanImage W H px).found = true)
    (h2 : (50 : ℤ) ≤ ((scanImage W H px).maxX : ℤ) - ((scanImage W H px).minX : ℤ))
    (h3 : (50 : ℤ) ≤ ((scanImage W H px).maxY : ℤ) - ((scanImage W H px).minY : ℤ)) :
    detectTransparentRegion W H px =
      MaskGeometry.mk
        (max 0 (((scanImage W H px).minX : ℚ) - 5))
        (max 0 (((scanImage W H px).minY : ℚ) - 5))
        (min ((W : ℚ) - ((scanImage W H px).minX : ℚ) + 5 * 2)
          (((scanImage W H px).maxX : ℚ) - ((scanImage W H px).minX : ℚ) + 5 * 2))
        (min ((H : ℚ) - ((scanImage W H px).minY : ℚ) + 5 * 2)
          (((scanImage W H px).maxY : ℚ) - ((scanImage W H px).minY : ℚ) + 5 * 2)) ∧
    detectTransparentRegion 400 400 specExamplePx =
      MaskGeometry.mk 95 95 209 209 :=
  ⟨detect_eq_padded W H px h1 h2 h3, detect_specExample⟩

/-- Witness for the amended C5 on the fully transparent 51 by 51 image. -/
theorem detectTransparentRegion_amended_witness :
    (scanImage 51 51 clearPx).found = true ∧
    (50 : ℤ) ≤ ((scanImage 51 51 clearPx).maxX : ℤ) - ((scanImage 51 51 clearPx).minX : ℤ) ∧
    (50 : ℤ) ≤ ((scanImage 51 51 clearPx).maxY : ℤ) - ((scanImage 51 51 clearPx).minY : ℤ) ∧
    detectTransparentRegion 51 51 clearPx = MaskGeometry.mk 0 0 60 60 ∧
    detectTransparentRegion 400 400 specExamplePx = MaskGeometry.mk 95 95 209 209 := by
  have hs := scanImage_clear51
  have h1 : (scanImage 51 51 clearPx).found = true := by rw [hs]
  have h2 : (50 : ℤ) ≤ ((scanImage 51 51 clearPx).maxX : ℤ) -
      ((scanImage 51 51 clearPx).minX : ℤ) := by rw [hs]; decide
  have h3 : (50 : ℤ) ≤ ((scanImage 51 51 clearPx).maxY : ℤ) -
      ((scanImage 51 51 clearPx).minY : ℤ) := by rw [hs]; decide
  obtain ⟨hmain, hex⟩ := detectTransparentRegion_amended 51 51 clearPx h1 h2 h3
  refine ⟨h1, h2, h3, ?_, hex⟩
  rw [hmain, hs]
  rw [MaskGeometry.mk.injEq]
  norm_num

/-- C6: detection falls back to the default rectangle
(0.15 W, 0.15 H, 0.7 W, 0.5 H) in both documented cases: on an image with
no window pixel at all (for example fully opaque uniform mid-gray), and on
an image whose detected bounding box is below the 50 px minimum on either
axis (extents measured as maxX - minX and maxY - minY). -/
theorem detect_fallback_cases (W H : ℕ) (pxGray pxSmall : ℕ → ℕ → Pixel)
    (hgray : ∀ x y, pxGray x y = midGrayPixel)
    (hsmall : ((scanImage W H pxSmall).maxX : ℤ) - ((scanImage W H pxSmall).minX : ℤ) < 50 ∨
      ((scanImage W H pxSmall).maxY : ℤ) - ((scanImage W H pxSmall).minY : ℤ) < 50) :
    detectTransparentRegion W H pxGray =
      MaskGeometry.mk ((W : ℚ) * 0.15) ((H : ℚ) * 0.15) ((W : ℚ) * 0.7) ((H : ℚ) * 0.5) ∧
    detectTransparentRegion W H pxSmall =
      MaskGeometry.mk ((W : ℚ) * 0.15) ((H : ℚ) * 0.15) ((W : ℚ) * 0.7) ((H : ℚ) * 0.5) := by
  constructor
  · have hno : ∀ x y, x < W → y < H → isWindowPixel (pxGray x y) = false := by
      intro x y _ _
      rw [hgray x y]
      rfl
    have hs := scanImage_no_window W H pxGray hno
    have hfound : (scanImage W H pxGray).found = false := by rw [hs]
    rw [detect_eq_fallback_of_not_found W H pxGray hfound]
    rfl
  · rw [detect_eq_fallback_of_small W H pxSmall hsmall]
    rfl

/-- Witness for C6 on 2 by 2 images: uniform mid-gray, and fully
transparent (bounding box extent 1, below the 50 px minimum). -/
theorem detect_fallback_cases_witness :
    (∀ x y, grayPx x y = midGrayPixel) ∧
    (((scanImage 2 2 clearPx).maxX : ℤ) - ((scanImage 2 2 clearPx).minX : ℤ) < 50 ∨
      ((scanImage 2 2 clearPx).maxY : ℤ) - ((scanImage 2 2 clearPx).minY : ℤ) < 50) ∧
    (detectTransparentRegion 2 2 grayPx =
        MaskGeometry.mk ((2 : ℚ) * 0.15) ((2 : ℚ) * 0.15) ((2 : ℚ) * 0.7) ((2 : ℚ) * 0.5) ∧
      detectTransparentRegion 2 2 clearPx =
        MaskGeometry.mk ((2 : ℚ) * 0.15) ((2 : ℚ) * 0.15) ((2 : ℚ) * 0.7) ((2 : ℚ) * 0.5)) := by
  have hs : scanImage 2 2 clearPx = ScanState.mk 0 0 1 1 true := by
    apply scanImage_rect 2 2 0 1 0 1 clearPx
      (by omega) (by omega) (by omega) (by omega)
    · intro x y _ _ _ _
      rfl
    · intro x y hxW hyH hnot
      exact absurd ⟨Nat.zero_le x, by omega, Nat.zero_le y, by omega⟩ hnot
  have hsmall : ((scanImage 2 2 clearPx).maxX : ℤ) - ((scanImage 2 2 clearPx).minX : ℤ) < 50 ∨
      ((scanImage 2 2 clearPx).maxY : ℤ) - ((scanImage 2 2 clearPx).minY : ℤ) < 50 := by
    rw [hs]
    decide
  have h := detect_fallback_cases 2 2 grayPx clearPx (fun _ _ => rfl) hsmall
  have hcast : ((2 : ℕ) : ℚ) = (2 : ℚ) := by norm_num
  rw [hcast] at h
  exact ⟨fun _ _ => rfl, hsmall, h⟩

end Caissa
